import Mathlib

/-!
Shallow embedding of the credential/session core of the EHR-FHIR-Vue-Express
repository.

Backend (Express + TypeORM):
* `src/services/auth.service.ts`   — `AuthService` (register, validateUser,
  generateAccessToken, generateAndSaveRefreshToken, login, validateRefreshToken,
  invalidateUserTokens, logout)
* `src/controllers/auth.controller.ts` — `login`, `refresh`, `logout` handlers
  and the cookie helpers `setTokenCookies` / `clearTokenCookies`
* `src/middleware/auth.middleware.ts`  — `authMiddleware` JWT error mapping
* `src/models/entities/User.entity.ts` — `UserEntity` with the
  `@BeforeInsert/@BeforeUpdate` `hashPassword` hook
* `src/dto/RegisterUser.dto.ts`, `src/dto/LoginUser.dto.ts` — input validators

Frontend (Vue + axios + Pinia):
* `src/services/apiClient.ts` — axios response interceptor implementing the
  single-flight refresh (`isRefreshing`, `failedQueue`, `processQueue`)
* `src/stores/authStore.ts`   — `useAuthStore` (`logoutAction`,
  `refreshTokenAction`, sessionStorage persistence)

Machine integers do not occur on these paths; JS numbers used here are
timestamps and counters, modelled as `Nat`.  Fallible operations return
`Option`/`Except`.  External libraries (jsonwebtoken, bcrypt) are modelled by
small abstract interfaces faithful to their documented contracts, as noted at
each definition.
-/

namespace EHR

/-- JWT payload carried by both credentials
(`src/services/auth.service.ts`, interface `JwtPayload`). -/
structure JwtPayload where
  userId : Nat
  email : String
deriving DecidableEq

/-- Shallow model of a signed JWT string.  `sigValid` abstracts whether RS256
signature / issuer / audience verification under the server key pair succeeds
(`jwt.verify` with `algorithms: ['RS256'], issuer, audience`); `expiresAt` is
the embedded `exp` claim; `nonce` models the issue-time material (`iat`,
signature bytes) that makes two tokens with the same payload distinct strings.
Structural equality of this type models string equality (`!==`) of the
serialized tokens. -/
structure Token where
  payload : JwtPayload
  expiresAt : Nat
  nonce : Nat
  sigValid : Bool
deriving DecidableEq

/-- The two failure kinds of jsonwebtoken's `verify` that the repository
distinguishes (`jwt.TokenExpiredError` vs `jwt.JsonWebTokenError`), as matched
in `src/middleware/auth.middleware.ts` lines 72-79. -/
inductive JwtError
  | tokenExpired
  | jsonWebTokenError
deriving DecidableEq

/-- Model of `jwt.verify(token, publicKey, {...})`: signature/claim failures
give `JsonWebTokenError`, an `exp` claim at or before the clock gives
`TokenExpiredError`, otherwise the decoded payload is returned.  (jsonwebtoken
reports expiry when `clockTimestamp >= exp`.) -/
def jwtVerify (now : Nat) (t : Token) : Except JwtError JwtPayload :=
  if t.sigValid = false then .error .jsonWebTokenError
  else if t.expiresAt ≤ now then .error .tokenExpired
  else .ok t.payload

/-- `UserEntity` (`src/models/entities/User.entity.ts`): the account row also
holds the single active session record (`refresh_token`,
`refresh_token_expires_at`, both nullable). -/
structure UserEntity where
  id : Nat
  email : String
  password : String
  refreshToken : Option Token
  refreshTokenExpiresAt : Option Nat
deriving DecidableEq

/-- The `users` table, in insertion order. -/
abbrev UserDB := List UserEntity

/-- `userRepository.findOneBy({ id })`. -/
def findById (db : UserDB) (i : Nat) : Option UserEntity :=
  db.find? (fun u => u.id == i)

/-- `userRepository.findOneBy({ email })`. -/
def findByEmail (db : UserDB) (e : String) : Option UserEntity :=
  db.find? (fun u => u.email == e)

/-- The `@BeforeInsert/@BeforeUpdate` hook `UserEntity.hashPassword`
(`User.entity.ts` lines 214-225): hash only when the password field is truthy
(a non-empty string) and shorter than 60 characters.  The bcrypt hash function
is passed explicitly (`bcrypt.hash` with its salt fixed, so hashing is a
function of the input string). -/
def hashPassword (hash : String → String) (u : UserEntity) : UserEntity :=
  if u.password ≠ "" ∧ u.password.length < 60 then
    { u with password := hash u.password }
  else u

/-- Model of `bcrypt.compare(pass, stored)` under the same fixed-salt
abstraction: the comparison succeeds exactly when the stored string is the
hash of the attempt. -/
def bcryptCompare (hash : String → String) (pass stored : String) : Bool :=
  stored == hash pass

/-- A concrete instance of the bcrypt interface used to evaluate theorems on
closed inputs: output always has bcrypt's documented shape — the `$2b$10$`
prefix followed by 53 salt/digest characters, total length 60. -/
def bhash (s : String) : String :=
  "$2b$10$" ++ String.mk ((s.data ++ List.replicate 53 '.').take 53)

/-- `RegisterUserDto` (`src/dto/RegisterUser.dto.ts`). -/
structure RegisterUserDto where
  email : String
  password : String
deriving DecidableEq

/-- Abstraction of class-validator's `@IsEmail`. -/
def isEmailFormat (e : String) : Bool :=
  e.data.contains '@'

/-- The class-validator checks on `RegisterUserDto`: email `@IsNotEmpty`,
`@IsEmail`, `@MaxLength(100)`; password `@IsNotEmpty`, `@MinLength(8)`,
`@MaxLength(100)`. -/
def validRegisterDto (d : RegisterUserDto) : Bool :=
  d.email ≠ "" && isEmailFormat d.email && d.email.length ≤ 100 &&
  d.password ≠ "" && 8 ≤ d.password.length && d.password.length ≤ 100

/-- The class-validator checks on `LoginUserDto` (`src/dto/LoginUser.dto.ts`):
email `@IsNotEmpty`, `@IsEmail`, `@MaxLength(100)`; password `@IsNotEmpty`. -/
def validLoginDto (email pass : String) : Bool :=
  email ≠ "" && isEmailFormat email && email.length ≤ 100 && pass ≠ ""

inductive RegisterResult
  | conflict
  | created (stored : UserEntity)
deriving DecidableEq

/-- `AuthService.register` (`auth.service.ts` lines 58-87): conflict when the
email exists, else create the entity and `repository.save` it, which runs the
`@BeforeInsert` `hashPassword` hook.  Returns the result together with the new
table contents. -/
def register (hash : String → String) (db : UserDB) (newId : Nat)
    (d : RegisterUserDto) : RegisterResult × UserDB :=
  match findByEmail db d.email with
  | some _ => (.conflict, db)
  | none =>
      let u : UserEntity :=
        { id := newId, email := d.email, password := d.password
          refreshToken := none, refreshTokenExpiresAt := none }
      let saved := hashPassword hash u
      (.created saved, db ++ [saved])

/-- `AuthService.validateUser` (`auth.service.ts` lines 98-107): look up by
email, return the account only when it exists and `bcrypt.compare` succeeds,
`none` otherwise — never an error. -/
def validateUser (hash : String → String) (db : UserDB)
    (email pass : String) : Option UserEntity :=
  match findByEmail db email with
  | some u => if bcryptCompare hash pass u.password then some u else none
  | none => none

/-- `AuthService.generateAccessToken` (`auth.service.ts` lines 118-130):
mint a short-lived RS256 access token for the payload. -/
def generateAccessToken (now accessTtl nonce : Nat) (p : JwtPayload) : Token :=
  { payload := p, expiresAt := now + accessTtl, nonce := nonce, sigValid := true }

/-- `AuthService.generateAndSaveRefreshToken` (`auth.service.ts` lines
145-177): sign a refresh token for the user, set `refreshToken` and
`refreshTokenExpiresAt = now + ttl` on the entity and `repository.save` it —
which runs the `@BeforeUpdate` `hashPassword` hook on the entity before the
row (keyed by id) is overwritten. -/
def generateAndSaveRefreshToken (hash : String → String)
    (now refreshTtl nonce : Nat) (db : UserDB) (user : UserEntity) :
    Token × UserDB :=
  let tok : Token :=
    { payload := { userId := user.id, email := user.email }
      expiresAt := now + refreshTtl, nonce := nonce, sigValid := true }
  let saved := hashPassword hash
    { user with refreshToken := some tok
                refreshTokenExpiresAt := some (now + refreshTtl) }
  (tok, db.map (fun v => if v.id == user.id then saved else v))

/-- `AuthService.invalidateUserTokens` (`auth.service.ts` lines 284-293):
`repository.update({id}, {refreshToken: null, refreshTokenExpiresAt: null})` —
a query-builder update, so no entity hook runs. -/
def invalidateUserTokens (db : UserDB) (userId : Nat) : UserDB :=
  db.map (fun u =>
    if u.id == userId then
      { u with refreshToken := none, refreshTokenExpiresAt := none }
    else u)

/-- JS truthiness of the nullable `user.refreshToken` column (a stored token
is a non-empty string, hence truthy; `null` is falsy). -/
def refreshTokenTruthy : Option Token → Bool
  | none => false
  | some _ => true

/-- `user.refreshTokenExpiresAt < new Date()` on the nullable column: `null`
compares falsy (the null case was already caught by the preceding
`!user.refreshTokenExpiresAt` disjunct). -/
def dbExpired (now : Nat) : Option Nat → Bool
  | some e => decide (e < now)
  | none => false

/-- `AuthService.validateRefreshToken` (`auth.service.ts` lines 226-275).
1. `jwt.verify` the incoming token (signature, claims, embedded expiry);
   any `JwtError` yields `none` with no state change.
2. Fetch the account by the payload's `userId`.
3. Fail when the account is missing, the stored token differs (`!==`) from
   the incoming one, the stored expiry is unset, or the stored expiry has
   passed.  On failure, if the account exists with a truthy stored token
   different from the incoming one, eagerly clear the session record
   (`invalidateUserTokens`) — the reuse/theft response.
4. Otherwise return the account, leaving the table unchanged. -/
def validateRefreshToken (now : Nat) (db : UserDB) (token : Token) :
    Option UserEntity × UserDB :=
  match jwtVerify now token with
  | .error _ => (none, db)
  | .ok payload =>
      match findById db payload.userId with
      | none => (none, db)
      | some user =>
          if user.refreshToken != some token
              || user.refreshTokenExpiresAt == none
              || dbExpired now user.refreshTokenExpiresAt then
            (none,
              if refreshTokenTruthy user.refreshToken
                  && user.refreshToken != some token then
                invalidateUserTokens db user.id
              else db)
          else (some user, db)

/-- The cookie operations a controller response performs, mirroring
`setTokenCookies` / `clearTokenCookies` / the Option-B single `res.cookie`
call in `auth.controller.ts`. -/
structure CookieOps where
  setAccess : Option Token
  setRefresh : Option Token
  clearedAccess : Bool
  clearedRefresh : Bool
deriving DecidableEq

def noCookieOps : CookieOps :=
  { setAccess := none, setRefresh := none
    clearedAccess := false, clearedRefresh := false }

structure ApiResponse where
  status : Nat
  body : String
  cookies : CookieOps
deriving DecidableEq

/-- The `login` controller (`auth.controller.ts` lines 152-191): DTO
validation (400), `validateUser` (401 `'Incorrect email or password'` on
`null`), else `AuthService.login` — mint the access token, generate-and-save
the refresh token — and `setTokenCookies` for both channels (200). -/
def loginController (hash : String → String)
    (now accessTtl refreshTtl nonce : Nat) (db : UserDB)
    (email pass : String) : ApiResponse × UserDB :=
  if validLoginDto email pass = false then
    ({ status := 400, body := "Input validation failed", cookies := noCookieOps }, db)
  else
    match validateUser hash db email pass with
    | none =>
        ({ status := 401, body := "Incorrect email or password"
           cookies := noCookieOps }, db)
    | some user =>
        let access := generateAccessToken now accessTtl nonce
          { userId := user.id, email := user.email }
        let (rTok, db') := generateAndSaveRefreshToken hash now refreshTtl nonce db user
        ({ status := 200, body := ""
           cookies := { setAccess := some access, setRefresh := some rTok
                        clearedAccess := false, clearedRefresh := false } }, db')

/-- The `refresh` controller (`auth.controller.ts` lines 200-266): 401 when
the refresh cookie is missing; on failed validation `clearTokenCookies` plus
403; on success mint only a new access token and reset only the access-token
cookie (Option B — the refresh credential is not rotated). -/
def refreshController (now accessTtl nonce : Nat) (db : UserDB)
    (cookieRefreshToken : Option Token) : ApiResponse × UserDB :=
  match cookieRefreshToken with
  | none =>
      ({ status := 401, body := "Refresh token missing", cookies := noCookieOps }, db)
  | some tok =>
      match validateRefreshToken now db tok with
      | (none, db') =>
          ({ status := 403, body := "Refresh token is invalid or expired"
             cookies := { setAccess := none, setRefresh := none
                          clearedAccess := true, clearedRefresh := true } }, db')
      | (some user, db') =>
          ({ status := 200, body := "Access token refreshed successfully"
             cookies := { noCookieOps with
                            setAccess := some (generateAccessToken now accessTtl nonce
                              { userId := user.id, email := user.email }) } }, db')

/-- The outcome of `authMiddleware` (`src/middleware/auth.middleware.ts`):
either the decoded payload attached to the request, or the error response the
central handler produces from the `UnauthorizedError` (status 401 for every
kind — missing, expired, and malformed/invalid-signature alike). -/
inductive AuthGateResult
  | ok (p : JwtPayload)
  | failResp (status : Nat) (msg : String)
deriving DecidableEq

/-- `authMiddleware` lines 38-83: missing cookie → 401 `'Access token
missing'`; `TokenExpiredError` → 401 `'Access token has expired'`;
`JsonWebTokenError` → 401 `'Invalid access token'`. -/
def authMiddleware (now : Nat) (cookieAccessToken : Option Token) : AuthGateResult :=
  match cookieAccessToken with
  | none => .failResp 401 "Access token missing"
  | some t =>
      match jwtVerify now t with
      | .ok p => .ok p
      | .error .tokenExpired => .failResp 401 "Access token has expired"
      | .error .jsonWebTokenError => .failResp 401 "Invalid access token"

/-! ## Client side: auth store and the axios response interceptor -/

/-- The client-local authentication state the interceptor consults
(`useAuthStore`): `user` is the Pinia `user` ref (serialized), `storage` is
`sessionStorage.getItem('user')`. -/
structure ClientAuth where
  user : Option String
  storage : Option String
deriving DecidableEq

/-- The guard `!authStore.isAuthenticated && !sessionStorage.getItem('user')`
(`apiClient.ts` line 124). -/
def locallyLoggedOut (a : ClientAuth) : Bool :=
  a.user == none && a.storage == none

/-- The local-state effect of `useAuthStore.logoutAction`
(`src/stores/authStore.ts` lines 379-430): whatever the best-effort backend
call does, the `finally` block runs `setUser(null)` and
`sessionStorage.removeItem('user')`. -/
def logoutActionLocal (_a : ClientAuth) : ClientAuth :=
  { user := none, storage := none }

/-- The error surfaced to the interceptor: response status, original request
URL, and the per-request `_retry` flag on the request config. -/
structure ApiError where
  status : Nat
  url : String
  retry : Bool
deriving DecidableEq

/-- What the interceptor decides to do with one failed response. -/
inductive InterceptAction
  | startRefresh
  | enqueue
  | rejectError
  | resolveLogoutLocally
deriving DecidableEq

/-- The branch structure of the axios response interceptor
(`apiClient.ts` lines 115-224):
* status 401 on a URL other than `/auth/refresh` and `/auth/logout`, with the
  `_retry` flag unset: reject when locally logged out, enqueue on
  `failedQueue` when a refresh is in flight, else start the single refresh;
* status 401 on `/auth/logout`: resolve gracefully so the original logout
  flow completes locally;
* everything else (every non-401, and 401 from `/auth/refresh` or from an
  already-retried request): re-throw to the caller. -/
def interceptDecide (isRefreshing : Bool) (auth : ClientAuth) (e : ApiError) :
    InterceptAction :=
  if e.status == 401 && !(e.url == "/auth/refresh") && !(e.url == "/auth/logout")
      && !e.retry then
    if locallyLoggedOut auth then .rejectError
    else if isRefreshing then .enqueue
    else .startRefresh
  else if e.status == 401 && e.url == "/auth/logout" then .resolveLogoutLocally
  else .rejectError

/-- A wrapped request as the interceptor sees it: an identifier, its URL, and
its config's `_retry` flag. -/
structure Req where
  id : Nat
  url : String
  retry : Bool
deriving DecidableEq

/-- How one failed request's promise is eventually settled. -/
inductive Outcome
  | replayed (retryFlag : Bool)
  | rejectedTerminal
  | rejectedRefreshFailure
  | resolvedLocally
deriving DecidableEq

/-- The RequestGateway state: the module-level `isRefreshing` flag and FIFO
`failedQueue` of `apiClient.ts`, the request whose callback initiated the
in-flight refresh (to be replayed when it settles), the number of
`/auth/refresh` calls issued so far, the client auth state, and the log of
settled requests in settlement order. -/
structure Gateway where
  isRefreshing : Bool
  failedQueue : List Req
  trigger : Option Req
  refreshCalls : Nat
  auth : ClientAuth
  settledLog : List (Nat × Outcome)
deriving DecidableEq

/-- One error-interceptor callback running to completion on the event loop
for request `r` failing with `status`.  `startRefresh` sets the in-flight
flag, marks the request's config with `_retry = true` and issues the refresh
call (`refreshTokenAction`); `enqueue` pushes onto `failedQueue`; the other
two settle the promise immediately. -/
def onFail (s : Gateway) (status : Nat) (r : Req) : Gateway :=
  match interceptDecide s.isRefreshing s.auth
      { status := status, url := r.url, retry := r.retry } with
  | .enqueue => { s with failedQueue := s.failedQueue ++ [r] }
  | .startRefresh =>
      { s with isRefreshing := true
               refreshCalls := s.refreshCalls + 1
               trigger := some { r with retry := true } }
  | .rejectError =>
      { s with settledLog := s.settledLog ++ [(r.id, .rejectedTerminal)] }
  | .resolveLogoutLocally =>
      { s with settledLog := s.settledLog ++ [(r.id, .resolvedLocally)] }

/-- The in-flight refresh call settling.  On success `processQueue(null)`
resolves every waiter in enqueue order — each replays its original request,
whose `_retry` flag is whatever its config carries — and the trigger request
is replayed (its config carries `_retry = true`); the `finally` clears
`isRefreshing`.  On failure `processQueue(refreshError)` rejects every waiter
with the refresh failure, `authStore.logoutAction()` clears the local
session, the trigger rejects with the refresh failure, and the `finally`
clears `isRefreshing`. -/
def onSettle (s : Gateway) (ok : Bool) : Gateway :=
  if ok then
    { s with failedQueue := []
             trigger := none
             isRefreshing := false
             settledLog := s.settledLog
               ++ s.failedQueue.map (fun r => (r.id, Outcome.replayed r.retry))
               ++ (match s.trigger with
                   | some t => [(t.id, Outcome.replayed t.retry)]
                   | none => []) }
  else
    { s with failedQueue := []
             trigger := none
             isRefreshing := false
             auth := logoutActionLocal s.auth
             settledLog := s.settledLog
               ++ s.failedQueue.map (fun r => (r.id, Outcome.rejectedRefreshFailure))
               ++ (match s.trigger with
                   | some t => [(t.id, Outcome.rejectedRefreshFailure)]
                   | none => []) }

/-- The gateway state before any failure: no refresh in flight, empty queue. -/
def g0 (auth : ClientAuth) : Gateway :=
  { isRefreshing := false, failedQueue := [], trigger := none
    refreshCalls := 0, auth := auth, settledLog := [] }

/-- Run a batch of 401-failure callbacks in event-loop order. -/
def runFails (s : Gateway) (rs : List Req) : Gateway :=
  rs.foldl (fun acc r => onFail acc 401 r) s

/-- A request eligible for the refresh path: not aimed at the refresh or
logout endpoints and not yet retried. -/
def protectedReq (r : Req) : Bool :=
  !(r.url == "/auth/refresh") && !(r.url == "/auth/logout") && !r.retry

/-- `n` successive logins with the same credentials: each round validates the
secret against the stored hash (`AuthService.validateUser`) and, on success,
persists a fresh refresh token (`AuthService.generateAndSaveRefreshToken`,
whose `repository.save` re-runs the `hashPassword` hook). -/
def loginN (hash : String → String) (now refreshTtl : Nat)
    (email secret : String) : Nat → UserDB → UserDB
  | 0, db => db
  | n + 1, db =>
      match validateUser hash db email secret with
      | some u =>
          loginN hash now refreshTtl email secret n
            (generateAndSaveRefreshToken hash now refreshTtl n db u).snd
      | none => db

/-! ### Concrete fixtures used to evaluate the theorems on closed inputs -/

/-- A locally-authenticated client. -/
def authFx : ClientAuth := { user := some "u", storage := some "u" }

def reqA : Req := { id := 0, url := "/patients", retry := false }

def reqB : Req := { id := 1, url := "/records", retry := false }

def reqC : Req := { id := 2, url := "/fhir", retry := false }

/-- A gateway state with one refresh in flight, triggered by `reqA`, with
`reqB` on the wait-list. -/
def gwInFlight : Gateway :=
  { isRefreshing := true, failedQueue := [reqB]
    trigger := some { reqA with retry := true }
    refreshCalls := 1, auth := authFx, settledLog := [] }

/-- The refresh credential currently stored for the fixture account. -/
def curTok : Token :=
  { payload := { userId := 1, email := "a@x.com" }
    expiresAt := 100, nonce := 0, sigValid := true }

/-- A superseded (or stolen) credential for the same account: valid signature
and unexpired, but a different token string than the stored one. -/
def oldTok : Token :=
  { payload := { userId := 1, email := "a@x.com" }
    expiresAt := 100, nonce := 1, sigValid := true }

def userFx : UserEntity :=
  { id := 1, email := "a@x.com", password := bhash "goodpass"
    refreshToken := some curTok, refreshTokenExpiresAt := some 100 }

def dbFx : UserDB := [userFx]

end EHR

/-! ## Theorems -/

namespace EHR

/-- `jwt.verify` succeeds exactly when the signature and claims verify and the
embedded expiry has not been reached, and then returns the embedded payload. -/
theorem jwtVerify_ok_iff (now : Nat) (t : Token) (p : JwtPayload) :
    jwtVerify now t = .ok p ↔
      (t.sigValid = true ∧ now < t.expiresAt ∧ p = t.payload) := by
  unfold jwtVerify
  split_ifs with h1 h2
  · simp [h1]
  · constructor
    · intro h; cases h
    · rintro ⟨-, hlt, -⟩; omega
  · constructor
    · intro h; cases h; exact ⟨by simpa using h1, by omega, rfl⟩
    · rintro ⟨-, -, rfl⟩; rfl

/-- `invalidateUserTokens` commutes with `findById`: the lookup returns the
same row with the session fields cleared when its id matches. -/
theorem findById_invalidate (db : UserDB) (i j : Nat) :
    findById (invalidateUserTokens db j) i
      = (findById db i).map (fun u =>
          if u.id == j then
            { u with refreshToken := none, refreshTokenExpiresAt := none }
          else u) := by
  have hcomp : ((fun u : UserEntity => u.id == i) ∘
      (fun u : UserEntity =>
        if u.id == j then
          { u with refreshToken := none, refreshTokenExpiresAt := none }
        else u))
      = (fun u : UserEntity => u.id == i) := by
    funext u
    by_cases hj : (u.id == j) = true <;> simp [Function.comp, hj]
  unfold findById invalidateUserTokens
  rw [List.find?_map, hcomp]

/-- A row overwrite keyed on the id of the row that a `findByEmail` lookup
returns is seen by the same lookup, provided the replacement keeps the email. -/
theorem findByEmail_update (db : UserDB) (em : String) (u u' : UserEntity)
    (hfind : findByEmail db em = some u) (he : u'.email = u.email) :
    findByEmail (db.map (fun v => if v.id == u.id then u' else v)) em
      = some u' := by
  induction db with
  | nil => simp [findByEmail] at hfind
  | cons h t ih =>
      unfold findByEmail at hfind ⊢
      by_cases hb : (h.email == em) = true
      · rw [List.find?_cons_of_pos (p := fun u : UserEntity => u.email == em) t hb] at hfind
        have hu : h = u := by injection hfind
        subst hu
        rw [List.map_cons]
        have hcond : ((if (h.id == h.id) then u' else h).email == em) = true := by
          rw [if_pos (by simp : (h.id == h.id) = true), he]
          exact hb
        rw [List.find?_cons_of_pos (p := fun u : UserEntity => u.email == em) _ hcond,
          if_pos (by simp : (h.id == h.id) = true)]
      · rw [List.find?_cons_of_neg (p := fun u : UserEntity => u.email == em) t hb] at hfind
        have hue := List.find?_some hfind
        rw [List.map_cons]
        by_cases hj : (h.id == u.id) = true
        · have hcond : ((if (h.id == u.id) then u' else h).email == em) = true := by
            rw [if_pos hj, he]
            exact hue
          rw [List.find?_cons_of_pos (p := fun u : UserEntity => u.email == em) _ hcond,
            if_pos hj]
        · have hcond : ¬(((if (h.id == u.id) then u' else h).email == em) = true) := by
            rw [if_neg hj]
            exact hb
          rw [List.find?_cons_of_neg (p := fun u : UserEntity => u.email == em) _ hcond]
          exact ih hfind

/-- C4 — Refresh failure fan-out: when the in-flight refresh fails, every
request queued on the wait-list is rejected with the refresh failure (and so
is the triggering request), the ClientSessionManager is forced to logout so
the client ends Anonymous (user state null, persisted sessionStorage cache
removed), the in-flight flag is cleared, and no further refresh call is
issued. -/
theorem refresh_failure_fan_out (s : Gateway) (t : Req) (ht : s.trigger = some t) :
    (onSettle s false).auth.user = none ∧
    (onSettle s false).auth.storage = none ∧
    (onSettle s false).isRefreshing = false ∧
    (onSettle s false).refreshCalls = s.refreshCalls ∧
    (onSettle s false).settledLog =
      s.settledLog
        ++ s.failedQueue.map (fun r => (r.id, Outcome.rejectedRefreshFailure))
        ++ [(t.id, Outcome.rejectedRefreshFailure)] := by
  simp [onSettle, logoutActionLocal, ht]

/-- Witness for C4 at a concrete in-flight state. -/
theorem refresh_failure_fan_out_witness :
    (onSettle gwInFlight false).auth.user = none ∧
    (onSettle gwInFlight false).auth.storage = none ∧
    (onSettle gwInFlight false).isRefreshing = false ∧
    (onSettle gwInFlight false).refreshCalls = gwInFlight.refreshCalls ∧
    (onSettle gwInFlight false).settledLog =
      gwInFlight.settledLog
        ++ gwInFlight.failedQueue.map (fun r => (r.id, Outcome.rejectedRefreshFailure))
        ++ [(({ reqA with retry := true } : Req).id, Outcome.rejectedRefreshFailure)] :=
  refresh_failure_fan_out gwInFlight { reqA with retry := true } rfl

/-- C5 counterexample — the per-call `_retry` flag is set only on the request
that triggers the refresh, never on queued requests: here `reqA` triggers a
refresh, `reqB` is queued and replayed after the successful refresh with its
`_retry` flag still unset, and when its replay fails with 401 again it starts
a second refresh call (`refreshCalls = 2`, a fresh trigger) instead of
propagating the error to the caller (the settlement log gains no terminal
rejection). -/
theorem retry_guard_missing_for_queued_requests :
    (onFail (onSettle (runFails (g0 authFx) [reqA, reqB]) true) 401 reqB).refreshCalls = 2 ∧
    (onFail (onSettle (runFails (g0 authFx) [reqA, reqB]) true) 401 reqB).trigger
      = some { reqB with retry := true } ∧
    (onFail (onSettle (runFails (g0 authFx) [reqA, reqB]) true) 401 reqB).settledLog
      = (onSettle (runFails (g0 authFx) [reqA, reqB]) true).settledLog := by
  decide

/-- C5 amended — At-most-once retry for the triggering request: the request
that initiates a refresh is replayed with its `_retry` flag set, and any
request whose `_retry` flag is set and that fails again with a 401 (on any
URL other than `/auth/logout`) is neither queued nor triggers another
refresh: its error propagates to the caller as a terminal rejection.  Queued
requests, by contrast, are replayed with whatever flag their config already
carried (they are never marked), which is what the counterexample exploits. -/
theorem retry_guard_at_most_once_amended (s : Gateway) (r : Req)
    (hr : r.retry = true) (hu : r.url ≠ "/auth/logout") :
    onFail s 401 r
      = { s with settledLog := s.settledLog ++ [(r.id, Outcome.rejectedTerminal)] } := by
  have hu' : (r.url == "/auth/logout") = false := by
    simpa using hu
  simp [onFail, interceptDecide, hr, hu']

/-- Witness for the amended C5 at a concrete retried request. -/
theorem retry_guard_at_most_once_amended_witness :
    onFail gwInFlight 401 { reqA with retry := true }
      = { gwInFlight with
            settledLog := gwInFlight.settledLog
              ++ [(({ reqA with retry := true } : Req).id, Outcome.rejectedTerminal)] } :=
  retry_guard_at_most_once_amended gwInFlight { reqA with retry := true } rfl
    (by decide)

/-- C6 — the claim is right and the code is wrong: the `RegisterUserDto`
validator accepts passwords of 8 to 100 characters, but the
`hashPassword` hook only hashes passwords shorter than 60 characters, so a
registration with a 60-character password is accepted and its clear secret is
written to the user store verbatim — contradicting the entity's own
documentation ("ensures passwords are never stored in plaintext"). -/
theorem register_persists_long_password_in_clear :
    validRegisterDto
      { email := "a@x.com", password := String.mk (List.replicate 60 'a') } = true ∧
    (register bhash [] 1
      { email := "a@x.com", password := String.mk (List.replicate 60 'a') }).snd
      = [{ id := 1, email := "a@x.com"
           password := String.mk (List.replicate 60 'a')
           refreshToken := none, refreshTokenExpiresAt := none }] := by
  decide

/-- C7 counterexample — a malformed / signature-invalid access credential is
mapped by `authMiddleware` to a 401 (`'Invalid access token'`, issued here
while the token is far from its embedded expiry, so the failure is not
expired-shaped), and the client interceptor reacts to any such 401 on a
protected URL by starting a refresh rather than propagating it as terminal:
the refresh path is not reserved to `ExpiredCredential`-shaped failures. -/
theorem malformed_401_triggers_refresh :
    authMiddleware 0
      (some { payload := { userId := 1, email := "a@x.com" }
              expiresAt := 1000, nonce := 0, sigValid := false })
      = .failResp 401 "Invalid access token" ∧
    interceptDecide false authFx { status := 401, url := "/patients", retry := false }
      = .startRefresh := by
  decide

/-- C7 amended — the client initiates (or queues behind) a refresh exactly
when the failed response has status 401, its URL is neither `/auth/refresh`
nor `/auth/logout`, its config has not been marked retried, and the client is
locally authenticated — regardless of whether the 401 was expired-shaped or
malformed/signature-shaped (the interceptor never inspects the failure kind);
in particular every non-401 failure propagates to the caller without a
refresh attempt. -/
theorem refresh_trigger_condition_amended (isR : Bool) (auth : ClientAuth)
    (e : ApiError) :
    (interceptDecide isR auth e = .enqueue ∨
     interceptDecide isR auth e = .startRefresh) ↔
      (e.status = 401 ∧ e.url ≠ "/auth/refresh" ∧ e.url ≠ "/auth/logout" ∧
       e.retry = false ∧ locallyLoggedOut auth = false) := by
  unfold interceptDecide
  cases h1 : (e.status == 401) with
  | false =>
      have : e.status ≠ 401 := by simpa using h1
      simp [h1, this]
  | true =>
      have hs : e.status = 401 := by simpa using h1
      cases h2 : (e.url == "/auth/refresh") with
      | true =>
          have : e.url = "/auth/refresh" := by simpa using h2
          simp [h1, h2, this]
      | false =>
          have hr2 : e.url ≠ "/auth/refresh" := by simpa using h2
          cases h3 : (e.url == "/auth/logout") with
          | true =>
              have : e.url = "/auth/logout" := by simpa using h3
              simp [h1, h2, h3, this]
          | false =>
              have hr3 : e.url ≠ "/auth/logout" := by simpa using h3
              cases h4 : e.retry with
              | true => simp [h1, h2, h3, h4]
              | false =>
                  cases h5 : locallyLoggedOut auth with
                  | true => simp [h1, h2, h3, h4, h5]
                  | false =>
                      cases isR <;> simp [h1, h2, h3, h4, h5, hs, hr2, hr3]

/-- Characterization of `validateRefreshToken` acceptance (shared helper):
the account is returned exactly when the token's signature and claims verify,
its embedded expiry has not been reached, the account row is found under the
payload's `userId`, the stored token is exactly the incoming one, and the
stored expiry is set and has not passed. -/
theorem vrt_fst_some_iff (now : Nat) (db : UserDB) (tok : Token)
    (u : UserEntity) :
    (validateRefreshToken now db tok).fst = some u ↔
      (tok.sigValid = true ∧ now < tok.expiresAt ∧
       findById db tok.payload.userId = some u ∧
       u.refreshToken = some tok ∧
       ∃ e, u.refreshTokenExpiresAt = some e ∧ ¬ e < now) := by
  unfold validateRefreshToken
  cases hv : jwtVerify now tok with
  | error err =>
      simp only [hv]
      constructor
      · intro h; cases h
      · rintro ⟨h1, h2, -⟩
        have hok : jwtVerify now tok = .ok tok.payload :=
          (jwtVerify_ok_iff now tok tok.payload).mpr ⟨h1, h2, rfl⟩
        rw [hv] at hok; cases hok
  | ok p =>
      obtain ⟨hs, hlt, hp⟩ := (jwtVerify_ok_iff now tok p).mp hv
      subst hp
      simp only [hv]
      cases hf : findById db tok.payload.userId with
      | none =>
          simp only [hf]
          constructor
          · intro h; cases h
          · rintro ⟨-, -, hcontr, -⟩; cases hcontr
      | some user =>
          simp only [hf]
          by_cases hC : (user.refreshToken != some tok
              || user.refreshTokenExpiresAt == none
              || dbExpired now user.refreshTokenExpiresAt) = true
          · rw [if_pos hC]
            constructor
            · intro h; cases h
            · rintro ⟨-, -, hfind2, hrt, e, hexp, hnl⟩
              have hu : user = u := by
                injection hfind2
              subst hu
              rw [hrt, hexp] at hC
              simp [dbExpired, hnl] at hC
          · rw [if_neg hC]
            simp only [Bool.or_eq_true, not_or, bne_iff_ne, ne_eq,
              Decidable.not_not, beq_iff_eq] at hC
            obtain ⟨⟨hC1, hC2⟩, hC3⟩ := hC
            cases hopt : user.refreshTokenExpiresAt with
            | none => exact absurd hopt hC2
            | some e =>
                rw [hopt] at hC3
                have hnl : ¬ e < now := by
                  simpa [dbExpired] using hC3
                constructor
                · intro h
                  have hu : user = u := by injection h
                  subst hu
                  exact ⟨hs, hlt, rfl, hC1, e, hopt, hnl⟩
                · rintro ⟨-, -, hfind2, -, -⟩
                  have hu : user = u := by injection hfind2
                  subst hu
                  rfl

/-- On acceptance, `validateRefreshToken` performs no state change (shared
helper): the pair it returns is exactly `(some u, db)`. -/
theorem vrt_success_pair (now : Nat) (db : UserDB) (tok : Token)
    (u : UserEntity) (hval : (validateRefreshToken now db tok).fst = some u) :
    validateRefreshToken now db tok = (some u, db) := by
  obtain ⟨hs, hlt, hf, hrt, e, hexp, hnl⟩ :=
    (vrt_fst_some_iff now db tok u).mp hval
  have hjwt : jwtVerify now tok = .ok tok.payload :=
    (jwtVerify_ok_iff now tok tok.payload).mpr ⟨hs, hlt, rfl⟩
  have hC : (u.refreshToken != some tok
      || u.refreshTokenExpiresAt == none
      || dbExpired now u.refreshTokenExpiresAt) = false := by
    simp [hrt, hexp, dbExpired, hnl]
  unfold validateRefreshToken
  simp only [hjwt, hf]
  rw [if_neg (by simp [hC])]

/-- C3 — Dual-checked refresh acceptance: `validateRefreshToken` returns the
account if and only if the credential's signature and embedded claims
(including the embedded expiry) verify, the account's session record is
found, the stored refresh value exactly equals the incoming credential, and
the store's expiry is set and has not passed; any failure of these conditions
yields `none`, never an accepted refresh. -/
theorem validateRefreshToken_accepts_iff (now : Nat) (db : UserDB)
    (tok : Token) (u : UserEntity) :
    (validateRefreshToken now db tok).fst = some u ↔
      (tok.sigValid = true ∧ now < tok.expiresAt ∧
       findById db tok.payload.userId = some u ∧
       u.refreshToken = some tok ∧
       ∃ e, u.refreshTokenExpiresAt = some e ∧ ¬ e < now) :=
  vrt_fst_some_iff now db tok u

/-- C2 — Reuse/theft detection: when a refresh credential verifies
cryptographically but the account's session record holds a *different*
current token, `validateRefreshToken` clears the account's session record
entirely (both fields null) and fails; the `refresh` controller then answers
403 with both credential cookies cleared; and presenting the
previously-current credential afterwards also fails. -/
theorem refresh_reuse_detection (now aTtl nonce : Nat) (db : UserDB)
    (tok cur : Token) (u : UserEntity)
    (hsig : tok.sigValid = true) (hexp : now < tok.expiresAt)
    (hfind : findById db tok.payload.userId = some u)
    (hstored : u.refreshToken = some cur) (hne : cur ≠ tok)
    (hcurid : cur.payload.userId = u.id) :
    (validateRefreshToken now db tok).fst = none ∧
    (validateRefreshToken now db tok).snd = invalidateUserTokens db u.id ∧
    findById (validateRefreshToken now db tok).snd u.id
      = some { u with refreshToken := none, refreshTokenExpiresAt := none } ∧
    (refreshController now aTtl nonce db (some tok)).fst
      = { status := 403, body := "Refresh token is invalid or expired"
          cookies := { setAccess := none, setRefresh := none
                       clearedAccess := true, clearedRefresh := true } } ∧
    (validateRefreshToken now (validateRefreshToken now db tok).snd cur).fst
      = none := by
  have hjwt : jwtVerify now tok = .ok tok.payload :=
    (jwtVerify_ok_iff now tok tok.payload).mpr ⟨hsig, hexp, rfl⟩
  have hid : u.id = tok.payload.userId := by
    simpa using List.find?_some hfind
  have hC : (u.refreshToken != some tok
      || u.refreshTokenExpiresAt == none
      || dbExpired now u.refreshTokenExpiresAt) = true := by
    simp [hstored, hne]
  have hguard : (refreshTokenTruthy u.refreshToken
      && u.refreshToken != some tok) = true := by
    simp [hstored, refreshTokenTruthy, hne]
  have hval : validateRefreshToken now db tok = (none, invalidateUserTokens db u.id) := by
    unfold validateRefreshToken
    simp only [hjwt, hfind]
    rw [if_pos hC, if_pos hguard]
  have hfind' : findById (invalidateUserTokens db u.id) u.id
      = some { u with refreshToken := none, refreshTokenExpiresAt := none } := by
    rw [findById_invalidate]
    have : findById db u.id = some u := by rw [hid]; exact hfind
    rw [this]
    simp
  refine ⟨by rw [hval], by rw [hval], by rw [hval]; exact hfind', ?_, ?_⟩
  · unfold refreshController
    simp only [hval]
  · rw [hval]
    cases hv2 : jwtVerify now cur with
    | error err => unfold validateRefreshToken; simp only [hv2]
    | ok p =>
        obtain ⟨-, -, hp⟩ := (jwtVerify_ok_iff now cur p).mp hv2
        subst hp
        unfold validateRefreshToken
        simp only [hv2, hcurid, hfind']
        simp [dbExpired]

/-- Witness for C2: a valid-signature superseded token (`oldTok`) is
presented while the store holds `curTok`; the session record is wiped, the
response is a cookie-clearing 403, and `curTok` itself is rejected
afterwards. -/
theorem refresh_reuse_detection_witness :
    (validateRefreshToken 50 dbFx oldTok).fst = none ∧
    (validateRefreshToken 50 dbFx oldTok).snd = invalidateUserTokens dbFx userFx.id ∧
    findById (validateRefreshToken 50 dbFx oldTok).snd userFx.id
      = some { userFx with refreshToken := none, refreshTokenExpiresAt := none } ∧
    (refreshController 50 10 7 dbFx (some oldTok)).fst
      = { status := 403, body := "Refresh token is invalid or expired"
          cookies := { setAccess := none, setRefresh := none
                       clearedAccess := true, clearedRefresh := true } } ∧
    (validateRefreshToken 50 (validateRefreshToken 50 dbFx oldTok).snd curTok).fst
      = none :=
  refresh_reuse_detection 50 10 7 dbFx oldTok curTok userFx rfl (by decide)
    rfl rfl (by decide) rfl

/-- C8 — Non-rotation frame: on a successful refresh the user table is left
untouched (so the stored refresh token and its expiry are unchanged), the
response only sets a fresh access-token cookie, and the refresh-token cookie
is neither set nor cleared. -/
theorem refresh_non_rotation_frame (now aTtl nonce : Nat) (db : UserDB)
    (tok : Token) (u : UserEntity)
    (hval : (validateRefreshToken now db tok).fst = some u) :
    (validateRefreshToken now db tok).snd = db ∧
    (refreshController now aTtl nonce db (some tok)).snd = db ∧
    (refreshController now aTtl nonce db (some tok)).fst
      = { status := 200, body := "Access token refreshed successfully"
          cookies := { setAccess := some (generateAccessToken now aTtl nonce
                          { userId := u.id, email := u.email })
                       setRefresh := none
                       clearedAccess := false, clearedRefresh := false } } := by
  have hpair := vrt_success_pair now db tok u hval
  refine ⟨by rw [hpair], ?_, ?_⟩
  · unfold refreshController
    simp only [hpair]
  · unfold refreshController
    simp only [hpair]
    rfl

/-- C9 — Authentication-failure indistinguishability: an unknown identity and
a known identity with a non-matching secret both make `validateUser` return
`none` (not an error), and the `login` controller produces the identical 401
response — same status, same body, no cookie operations — in both cases. -/
theorem login_failure_indistinguishable (hash : String → String)
    (now aTtl rTtl nonce : Nat) (db : UserDB)
    (e1 p1 e2 p2 : String) (u2 : UserEntity)
    (hv1 : validLoginDto e1 p1 = true) (hv2 : validLoginDto e2 p2 = true)
    (h1 : findByEmail db e1 = none)
    (h2 : findByEmail db e2 = some u2)
    (h2c : bcryptCompare hash p2 u2.password = false) :
    validateUser hash db e1 p1 = none ∧
    validateUser hash db e2 p2 = none ∧
    loginController hash now aTtl rTtl nonce db e1 p1
      = loginController hash now aTtl rTtl nonce db e2 p2 ∧
    (loginController hash now aTtl rTtl nonce db e1 p1).fst
      = { status := 401, body := "Incorrect email or password"
          cookies := noCookieOps } := by
  have hu1 : validateUser hash db e1 p1 = none := by
    unfold validateUser
    simp only [h1]
  have hu2 : validateUser hash db e2 p2 = none := by
    unfold validateUser
    simp only [h2, h2c]
    rfl
  refine ⟨hu1, hu2, ?_, ?_⟩
  · unfold loginController
    simp only [hv1, hv2, hu1, hu2]
  · unfold loginController
    simp only [hv1, hu1]
    rfl

/-- Witness for C9: `dbFx` knows only `a@x.com` (secret `goodpass`); logging
in as the unknown `b@x.com` and as `a@x.com` with the wrong secret yield the
same 401. -/
theorem login_failure_indistinguishable_witness :
    validateUser bhash dbFx "b@x.com" "whatever1" = none ∧
    validateUser bhash dbFx "a@x.com" "wrongpass" = none ∧
    loginController bhash 50 10 1000 7 dbFx "b@x.com" "whatever1"
      = loginController bhash 50 10 1000 7 dbFx "a@x.com" "wrongpass" ∧
    (loginController bhash 50 10 1000 7 dbFx "b@x.com" "whatever1").fst
      = { status := 401, body := "Incorrect email or password"
          cookies := noCookieOps } :=
  login_failure_indistinguishable bhash 50 10 1000 7 dbFx
    "b@x.com" "whatever1" "a@x.com" "wrongpass" userFx
    (by decide) (by decide) (by decide) rfl (by decide)

/-- C10 — Password hash preserved across session writes: starting from an
account whose stored password is a bcrypt hash (length at least 60), any
number of logins — each of which persists a new refresh token through
`repository.save`, re-running the `BeforeInsert/BeforeUpdate` hashing hook —
leaves the stored password equal to that hash (the hook's `length < 60` guard
skips it), so validating the original secret still succeeds. -/
theorem password_hash_preserved_across_logins (hash : String → String)
    (now refreshTtl : Nat) (email secret : String) (db : UserDB)
    (u : UserEntity)
    (hlen : 60 ≤ (hash secret).length)
    (hfind : findByEmail db email = some u)
    (hpw : u.password = hash secret) :
    ∀ n, ∃ w,
      findByEmail (loginN hash now refreshTtl email secret n db) email = some w ∧
      w.password = hash secret ∧
      validateUser hash (loginN hash now refreshTtl email secret n db)
        email secret = some w := by
  intro n
  induction n generalizing db u with
  | zero =>
      refine ⟨u, hfind, hpw, ?_⟩
      show validateUser hash db email secret = some u
      unfold validateUser
      simp only [hfind]
      simp [bcryptCompare, hpw]
  | succ n ih =>
      have hvu : validateUser hash db email secret = some u := by
        unfold validateUser
        simp only [hfind]
        simp [bcryptCompare, hpw]
      have hstep : loginN hash now refreshTtl email secret (n + 1) db
          = match validateUser hash db email secret with
            | some v => loginN hash now refreshTtl email secret n
                (generateAndSaveRefreshToken hash now refreshTtl n db v).snd
            | none => db := rfl
      have hstep2 : loginN hash now refreshTtl email secret (n + 1) db
          = loginN hash now refreshTtl email secret n
              (generateAndSaveRefreshToken hash now refreshTtl n db u).snd := by
        rw [hstep, hvu]
      rw [hstep2]
      set saved := hashPassword hash
        { u with refreshToken := some { payload := { userId := u.id, email := u.email }
                                        expiresAt := now + refreshTtl
                                        nonce := n, sigValid := true }
                 refreshTokenExpiresAt := some (now + refreshTtl) } with hsaved
      have hsp : saved.password = hash secret := by
        rw [hsaved]
        unfold hashPassword
        rw [if_neg]
        · exact hpw
        · rintro ⟨-, hlt⟩
          simp only [hpw] at hlt
          omega
      have hse : saved.email = u.email := by
        rw [hsaved]
        unfold hashPassword
        split <;> rfl
      have hfind' : findByEmail
          (generateAndSaveRefreshToken hash now refreshTtl n db u).snd email
          = some saved := by
        unfold generateAndSaveRefreshToken
        exact findByEmail_update db email u saved hfind hse
      exact ih _ saved hfind' hsp

/-- Witness for C10: three successive logins against the fixture store keep
the stored password equal to `bhash "goodpass"` and the secret valid. -/
theorem password_hash_preserved_across_logins_witness :
    ∃ w,
      findByEmail (loginN bhash 0 1000 "a@x.com" "goodpass" 3 dbFx) "a@x.com"
        = some w ∧
      w.password = bhash "goodpass" ∧
      validateUser bhash (loginN bhash 0 1000 "a@x.com" "goodpass" 3 dbFx)
        "a@x.com" "goodpass" = some w :=
  password_hash_preserved_across_logins bhash 0 1000 "a@x.com" "goodpass"
    dbFx userFx (by decide) rfl rfl 3

/-- Witness for C8: refreshing with the currently stored credential. -/
theorem refresh_non_rotation_frame_witness :
    (validateRefreshToken 50 dbFx curTok).snd = dbFx ∧
    (refreshController 50 10 7 dbFx (some curTok)).snd = dbFx ∧
    (refreshController 50 10 7 dbFx (some curTok)).fst
      = { status := 200, body := "Access token refreshed successfully"
          cookies := { setAccess := some (generateAccessToken 50 10 7
                          { userId := userFx.id, email := userFx.email })
                       setRefresh := none
                       clearedAccess := false, clearedRefresh := false } } :=
  refresh_non_rotation_frame 50 10 7 dbFx curTok userFx (by decide)

/-- While a locally-authenticated client has a refresh in flight, a protected
request failing with 401 is appended to the FIFO wait-list — nothing else in
the gateway state changes, and in particular no second refresh call starts
(shared helper). -/
theorem onFail_enqueue (s : Gateway) (r : Req) (hs : s.isRefreshing = true)
    (ha : locallyLoggedOut s.auth = false) (hp : protectedReq r = true) :
    onFail s 401 r = { s with failedQueue := s.failedQueue ++ [r] } := by
  unfold protectedReq at hp
  simp only [Bool.and_eq_true, Bool.not_eq_true'] at hp
  obtain ⟨⟨h1, h2⟩, h3⟩ := hp
  simp [onFail, interceptDecide, h1, h2, h3, hs, ha]

/-- A locally-authenticated client that is not refreshing starts exactly one
refresh out of the first protected 401, marking the request's config with
`_retry = true` as the trigger (shared helper). -/
theorem onFail_start (auth : ClientAuth) (r : Req)
    (ha : locallyLoggedOut auth = false) (hp : protectedReq r = true) :
    onFail (g0 auth) 401 r
      = { g0 auth with isRefreshing := true, refreshCalls := 1
                       trigger := some { r with retry := true } } := by
  unfold protectedReq at hp
  simp only [Bool.and_eq_true, Bool.not_eq_true'] at hp
  obtain ⟨⟨h1, h2⟩, h3⟩ := hp
  simp [onFail, interceptDecide, g0, h1, h2, h3, ha]

/-- Every protected 401 arriving while the refresh is in flight is enqueued
in arrival (FIFO) order; the rest of the state — in particular the number of
refresh calls, the trigger, and the settlement log — is untouched (shared
helper). -/
theorem runFails_inflight (rs : List Req) : ∀ (s : Gateway),
    s.isRefreshing = true → locallyLoggedOut s.auth = false →
    (∀ r ∈ rs, protectedReq r = true) →
    runFails s rs = { s with failedQueue := s.failedQueue ++ rs } := by
  induction rs with
  | nil =>
      intro s _ _ _
      simp [runFails]
  | cons r rs ih =>
      intro s h1 h2 h3
      have e1 := onFail_enqueue s r h1 h2 (h3 r (by simp))
      have estep : runFails s (r :: rs) = runFails (onFail s 401 r) rs := by
        simp [runFails]
      rw [estep, e1,
        ih { s with failedQueue := s.failedQueue ++ [r] } h1 h2
          (fun q hq => h3 q (by simp [hq]))]
      simp

/-- C1 — Single-flight refresh: for any batch of concurrent protected
requests that fail with 401 while no refresh is in flight (the client being
locally authenticated), the interceptor issues exactly one refresh call —
the first failure becomes the trigger (its config marked `_retry = true`)
and every later failure is enqueued on the FIFO wait-list without starting a
second refresh; no queued request settles before the in-flight refresh
settles, and when it does, every queued request is replayed in enqueue order
(on success) or rejected with the refresh failure (on failure), the trigger
likewise, with still exactly one refresh call issued overall. -/
theorem single_flight_refresh (auth : ClientAuth) (r0 : Req) (rs : List Req)
    (s : Gateway)
    (ha : locallyLoggedOut auth = false)
    (h0 : protectedReq r0 = true)
    (hrs : ∀ r ∈ rs, protectedReq r = true)
    (hs : s = runFails (g0 auth) (r0 :: rs)) :
    s.refreshCalls = 1 ∧
    s.isRefreshing = true ∧
    s.trigger = some { r0 with retry := true } ∧
    s.failedQueue = rs ∧
    s.settledLog = [] ∧
    (onSettle s true).settledLog
      = rs.map (fun r => (r.id, Outcome.replayed r.retry))
          ++ [(r0.id, Outcome.replayed true)] ∧
    (onSettle s false).settledLog
      = rs.map (fun r => (r.id, Outcome.rejectedRefreshFailure))
          ++ [(r0.id, Outcome.rejectedRefreshFailure)] ∧
    (onSettle s true).refreshCalls = 1 ∧
    (onSettle s false).refreshCalls = 1 := by
  have estep : runFails (g0 auth) (r0 :: rs) = runFails (onFail (g0 auth) 401 r0) rs := by
    simp [runFails]
  have e0 := onFail_start auth r0 ha h0
  have efin : s = { g0 auth with
      isRefreshing := true, refreshCalls := 1
      trigger := some { r0 with retry := true }
      failedQueue := rs } := by
    rw [hs, estep, e0, runFails_inflight rs _ rfl ha hrs]
    rfl
  subst efin
  refine ⟨rfl, rfl, rfl, rfl, rfl, ?_, ?_, rfl, rfl⟩ <;> simp [onSettle, g0]

/-- Witness for C1: three concurrent protected failures — `reqA` triggers the
single refresh, `reqB` and `reqC` queue in FIFO order and settle only with
the refresh, on both the success and the failure branch. -/
theorem single_flight_refresh_witness :
    (runFails (g0 authFx) (reqA :: [reqB, reqC])).refreshCalls = 1 ∧
    (runFails (g0 authFx) (reqA :: [reqB, reqC])).isRefreshing = true ∧
    (runFails (g0 authFx) (reqA :: [reqB, reqC])).trigger
      = some { reqA with retry := true } ∧
    (runFails (g0 authFx) (reqA :: [reqB, reqC])).failedQueue = [reqB, reqC] ∧
    (runFails (g0 authFx) (reqA :: [reqB, reqC])).settledLog = [] ∧
    (onSettle (runFails (g0 authFx) (reqA :: [reqB, reqC])) true).settledLog
      = [reqB, reqC].map (fun r => (r.id, Outcome.replayed r.retry))
          ++ [(reqA.id, Outcome.replayed true)] ∧
    (onSettle (runFails (g0 authFx) (reqA :: [reqB, reqC])) false).settledLog
      = [reqB, reqC].map (fun r => (r.id, Outcome.rejectedRefreshFailure))
          ++ [(reqA.id, Outcome.rejectedRefreshFailure)] ∧
    (onSettle (runFails (g0 authFx) (reqA :: [reqB, reqC])) true).refreshCalls = 1 ∧
    (onSettle (runFails (g0 authFx) (reqA :: [reqB, reqC])) false).refreshCalls = 1 :=
  single_flight_refresh authFx reqA [reqB, reqC] _ (by decide) (by decide)
    (by decide) rfl

end EHR
